import Mathlib

/-!
Verification development for the SageMaker Pipelines step-composition and
deferred-expression core.

Part 1 embeds the expression model (`Join`, `JsonGet`, parameter / property /
execution-variable references).  The implementation module for these classes is
not among the provided sources (only its unit tests are), so those definitions
are modelled from the specification and its test expectations, as marked on
each doc comment.

Part 2 embeds the `ModelStep` composer from
`src/sagemaker/workflow/model_step.py` line by line: the constructor
validation, retry-policy distribution, the repack loop with its in-place
`ModelDataUrl` patch, and the final create/register step.  Python dictionaries
holding the request payloads are embedded as structures whose possibly-missing
entries are `Option`s; a lookup the Python code would crash on (KeyError /
IndexError) is a `payloadKeyError` result.
-/

/-- Serialized JSON-like value: the wire-format intermediate representation
produced by expression serialization. -/
inductive JsonVal where
  | int (n : Int)
  | float (lit : String)
  | str (s : String)
  | bool (b : Bool)
  | arr (vs : List JsonVal)
  | obj (fields : List (String × JsonVal))

/-- Primitive Python scalar appearing literally inside an expression.  A
floating-point literal is carried as its (opaque) literal text, since the core
only ever passes it through unchanged. -/
inductive PrimVal where
  | int (n : Int)
  | float (lit : String)
  | str (s : String)
  | bool (b : Bool)
deriving DecidableEq, Repr

/-- Modelled from the spec: primitive scalar kinds serialize to themselves
unchanged. -/
def PrimVal.toJson : PrimVal → JsonVal
  | .int n => .int n
  | .float lit => .float lit
  | .str s => .str s
  | .bool b => .bool b

/-- Argument of `JsonGet`'s property-file parameter: either an inline file
name, or a `PropertyFile` descriptor with name / output-name / path. -/
inductive PropertyFileArg where
  | str (s : String)
  | file (name outputName path : String)
deriving DecidableEq, Repr

/-- Modelled from the spec: the file name used in serialization is the literal
string form of the argument, or the `.name` of a `PropertyFile` descriptor. -/
def PropertyFileArg.fileName : PropertyFileArg → String
  | .str s => s
  | .file n _ _ => n

/-- Argument of `JsonGet`'s step-name parameter: a concrete string, or a
deferred pipeline-variable expression (e.g. a `ParameterString`). -/
inductive StepNameArg where
  | lit (s : String)
  | deferred
deriving DecidableEq, Repr

/-- Expression entity: a literal, a parameter / execution-variable / property
reference, or one of the two deferred functions `Join` and `JsonGet` (the
`sep` field embeds `Join`'s `on` keyword argument, whose Python name is a
reserved token here). -/
inductive Expr where
  | prim (v : PrimVal)
  | parameter (name : String)
  | executionVariable (pascalName : String)
  | properties (path : String)
  | join (sep : String) (values : List Expr)
  | jsonGet (stepName : StepNameArg) (propertyFile : PropertyFileArg) (jsonPath : String)

/-- Modelled from the spec: the value-error message produced when `JsonGet` is
given an empty or deferred step name (tests only require that it contain the
phrase "valid step name"). -/
def jsonGetErrMsg : String := "Please give a valid step name as a string"

mutual

/-- Modelled from the spec: serialization (`.expr`) of an expression.
Primitives pass through unchanged; a parameter reference becomes
`Get Parameters.name`; an execution variable becomes `Get Execution.Name`; a
property reference becomes `Get path`; `Join` serializes its separator and
recursively serialized member values; `JsonGet` first validates that its step
name is a non-empty concrete string and fails with a value error otherwise. -/
def Expr.expr : Expr → Except String JsonVal
  | .prim v => .ok v.toJson
  | .parameter n => .ok (.obj [("Get", .str ("Parameters." ++ n))])
  | .executionVariable n => .ok (.obj [("Get", .str ("Execution." ++ n))])
  | .properties p => .ok (.obj [("Get", .str p)])
  | .join sep values =>
    match exprList values with
    | .error m => .error m
    | .ok vs => .ok (.obj [("Std:Join", .obj [("On", .str sep), ("Values", .arr vs)])])
  | .jsonGet sn pf path =>
    match sn with
    | .deferred => .error jsonGetErrMsg
    | .lit s =>
      if s = "" then .error jsonGetErrMsg
      else
        .ok (.obj [("Std:JsonGet", .obj
          [("PropertyFile", .obj [("Get", .str ("Steps." ++ s ++ ".PropertyFiles." ++ pf.fileName))]),
           ("Path", .str path)])])

/-- Modelled from the spec: serialization of a member list of a `Join`, in
order, propagating the first failure. -/
def exprList : List Expr → Except String (List JsonVal)
  | [] => .ok []
  | e :: es =>
    match e.expr, exprList es with
    | .ok v, .ok vs => .ok (v :: vs)
    | .error m, _ => .error m
    | .ok _, .error m => .error m

end

/-- True exactly on the two deferred-function variants `Join` and `JsonGet`. -/
def Expr.isJoinOrJsonGet : Expr → Bool
  | .join _ _ => true
  | .jsonGet _ _ _ => true
  | _ => false

/-- Modelled from the spec: native string conversion.  A literal converts as in
Python; every pipeline-variable variant (in particular any `Join` or `JsonGet`)
raises a type error, embedded as an `Except.error` carrying the message. -/
def pvStr : Expr → Except String String
  | .prim (.str s) => .ok s
  | .prim (.int n) => .ok (toString n)
  | .prim (.bool b) => .ok (if b then "True" else "False")
  | .prim (.float lit) => .ok lit
  | _ => .error "Pipeline variables do not support __str__ operation."

/-- Modelled from the spec: native integer conversion.  An integer literal is
the identity (other literal conversions are outside this model); every
pipeline-variable variant raises a type error. -/
def pvInt : Expr → Except String Int
  | .prim (.int n) => .ok n
  | _ => .error "Pipeline variables do not support __int__ operation."

/-- Modelled from the spec: native float conversion.  A float literal is the
identity (other literal conversions are outside this model); every
pipeline-variable variant raises a type error. -/
def pvFloat : Expr → Except String String
  | .prim (.float lit) => .ok lit
  | _ => .error "Pipeline variables do not support __float__ operation."

/-- Modelled from the spec: the concatenation override shared by all pipeline
variables.  Python dispatches here whenever either operand of `+` is a
pipeline variable, and the override raises unconditionally. -/
def pvAdd (_a _b : Expr) : Except String Expr :=
  .error "Pipeline variables do not support concatenation."

/-- Modelled from the spec: the string predicate `startswith` on a pipeline
variable cannot be evaluated at build time and returns `False` rather than
raising. -/
def pvStartswith (_e : Expr) (_pre : String) : Bool := false

/-- Modelled from the spec: the string predicate `endswith` on a pipeline
variable cannot be evaluated at build time and returns `False` rather than
raising. -/
def pvEndswith (_e : Expr) (_suf : String) : Bool := false

/-!
Part 2: the `ModelStep` composer, embedded from
`src/sagemaker/workflow/model_step.py`.
-/

/-- Value of a container's `ModelDataUrl` entry: either a concrete S3 url
string, or a deferred property reference (a `Properties` expression carrying
its path). -/
inductive ModelDataVal where
  | s3 (url : String)
  | propRef (path : String)
deriving DecidableEq, Repr

/-- Container argument dictionary, as consumed by the composer: the one entry
the composer patches (`ModelDataUrl`, possibly absent), plus all remaining
entries, which the composer treats as opaque. -/
structure Container where
  modelDataUrl : Option ModelDataVal
  rest : Nat
deriving DecidableEq, Repr

/-- Create-model request dictionary (`create_model_request`):
`PrimaryContainer` and `Containers` entries (each possibly absent, as in a
Python dict) plus the remaining entries, opaque to the composer. -/
structure CreateModelRequest where
  primaryContainer : Option Container
  containers : Option (List Container)
  rest : Nat
deriving DecidableEq, Repr

/-- Register-model (model-package) request dictionary
(`create_model_package_request`): the `InferenceSpecification.Containers`
entry (possibly absent) plus the remaining entries, opaque to the composer. -/
structure RegisterModelRequest where
  inferenceSpecificationContainers : Option (List Container)
  rest : Nat
deriving DecidableEq, Repr

/-- Constituent model object, as read inside the repack loop: its Python
object identity `id(model)` (the key of the need-repack indicator), its name,
and the artifact fields copied into a repack step. -/
structure ModelInfo where
  pid : Nat
  name : Option String
  modelData : Option String
  entryPoint : Option String
  sourceDir : Option String
deriving DecidableEq, Repr

/-- VPC configuration dictionary of the owning model, with its two read
entries (each possibly absent). -/
structure VpcConfig where
  securityGroupIds : Option (List String)
  subnets : Option (List String)
deriving DecidableEq, Repr

/-- Runtime shape of `step_args.model`, dispatched by the two `isinstance`
checks of `_append_repack_model_step`: a `PipelineModel` (with its `models`
list), a plain `Model`, or an unrecognized type. -/
inductive ModelShape where
  | pipelineModel (models : List ModelInfo)
  | singleModel (m : ModelInfo)
  | other
deriving DecidableEq, Repr

/-- True exactly on the `PipelineModel` shape (`isinstance(..., PipelineModel)`). -/
def ModelShape.isPipe : ModelShape → Bool
  | .pipelineModel _ => true
  | _ => false

/-- Constituent model list of a model shape: `models` for a `PipelineModel`,
the singleton for a plain `Model`, empty for an unrecognized shape. -/
def constituentModels : ModelShape → List ModelInfo
  | .pipelineModel ms => ms
  | .singleModel m => [m]
  | .other => []

/-- Owning model object of the step arguments: whether its
`sagemaker_session` is a `PipelineSession`, its runtime shape, and its
`vpc_config` (absent or falsy embedded as `none`). -/
structure ModelObj where
  sessionIsPipeline : Bool
  ref : ModelShape
  vpcConfig : Option VpcConfig
deriving DecidableEq, Repr

/-- The `_ModelStepArguments` payload: owning model, the mutually exclusive
create / register request dictionaries, and the need-repack indicator (a set
of `id(model)` values, embedded as a list; Python truthiness is
non-emptiness). -/
structure ModelStepArguments where
  model : ModelObj
  createModelRequest : Option CreateModelRequest
  createModelPackageRequest : Option RegisterModelRequest
  needRuntimeRepack : List Nat
deriving DecidableEq, Repr

/-- The `step_args` value actually passed to the constructor: either a genuine
`_ModelStepArguments` object, or a value of some other type (rejected by the
`isinstance` check). -/
inductive ModelStepInput where
  | args (a : ModelStepArguments)
  | notModelStepArguments
deriving DecidableEq, Repr

/-- The `retry_policies` constructor argument: absent, a single list applied
uniformly, or a dict with the three recognized keys (each possibly absent).
Individual retry policies are opaque. -/
inductive RetryArg where
  | list (ps : List Nat)
  | dict (createModel registerModel repackModel : Option (List Nat))
deriving DecidableEq, Repr

/-- Retry-policy distribution of `ModelStep.__init__` (lines 97-110): a dict
is split by its three recognized keys via `.get(key, None)`; anything else
(including `None`) is applied uniformly to all three buckets.  Result order:
(create, register, repack). -/
def distributeRetry : Option RetryArg → Option (List Nat) × Option (List Nat) × Option (List Nat)
  | none => (none, none, none)
  | some (.list ps) => (some ps, some ps, some ps)
  | some (.dict c r rp) => (c, r, rp)

/-- Produced step entity: a `_RepackModelStep`, a `CreateModelStep` or a
`_RegisterModelStep`, each carrying the fields the composer sets.  The
`dependsOn` field is `none` when no dependency list was ever attached
(Python `None`). -/
inductive Step where
  | repack (name : String) (dependsOn : Option (List String))
      (retryPolicies : Option (List Nat)) (modelData entryPoint sourceDir : Option String)
      (subnets securityGroupIds : Option (List String))
  | create (name : String) (stepArgs : Option CreateModelRequest)
      (dependsOn : Option (List String)) (retryPolicies : Option (List Nat))
  | register (name : String) (stepArgs : RegisterModelRequest)
      (dependsOn : Option (List String)) (retryPolicies : Option (List Nat))
deriving DecidableEq, Repr

/-- True exactly on repack steps. -/
def Step.isRepack : Step → Bool
  | .repack .. => true
  | _ => false

/-- True exactly on create-model steps. -/
def Step.isCreate : Step → Bool
  | .create .. => true
  | _ => false

/-- True exactly on register-model steps. -/
def Step.isRegister : Step → Bool
  | .register .. => true
  | _ => false

/-- Name of a produced step. -/
def Step.name : Step → String
  | .repack n .. => n
  | .create n _ _ _ => n
  | .register n _ _ _ => n

/-- Raw `depends_on` attribute of a produced step. -/
def Step.dependsOn : Step → Option (List String)
  | .repack _ d _ _ _ _ _ _ => d
  | .create _ _ d _ => d
  | .register _ _ d _ => d

/-- Explicit external dependency edges of a step: the attached list, with the
never-attached case (`None`) reading as no edges. -/
def Step.dependsOnEdges (s : Step) : List String := s.dependsOn.getD []

/-- Errors a `ModelStep` construction can raise: the three validation errors
of lines 64-83, plus a KeyError / IndexError raised by a payload lookup during
container patching (lines 186-196) on a misshapen request dictionary. -/
inductive ComposeError where
  | stepArgsTypeError
  | mutualExclusionValueError
  | sessionTypeError
  | payloadKeyError
deriving DecidableEq, Repr

/-- Result of a successful composition: the ordered step list and the log
warnings emitted along the way. -/
structure ComposeOut where
  steps : List Step
  warnings : List String
deriving DecidableEq, Repr

/-- String constant `_REGISTER_MODEL_NAME_BASE`. -/
def registerModelNameBase : String := "RegisterModel"

/-- String constant `_CREATE_MODEL_NAME_BASE`. -/
def createModelNameBase : String := "CreateModel"

/-- String constant `_REPACK_MODEL_NAME_BASE`. -/
def repackModelNameBase : String := "RepackModel"

/-- Semantics of `Step.add_depends_on` as used on the create / register step:
a falsy argument (`None` or `[]`) leaves the attribute unchanged; otherwise a
falsy current attribute is replaced by `[]` and then extended. -/
def addDependsOn (cur : Option (List String)) (arg : Option (List String)) : Option (List String) :=
  match arg with
  | none => cur
  | some [] => cur
  | some l => some (cur.getD [] ++ l)

/-- The loop flag of line 162: `self._need_runtime_repack and id(model) in
self._need_runtime_repack`. -/
def needRepackFlag (nr : List Nat) (m : ModelInfo) : Bool :=
  !nr.isEmpty && nr.contains m.pid

/-- The repack-step name disambiguator `model.name or i` of line 166: the
model's own name when truthy (present and non-empty), else the positional
index. -/
def nameBaseOf (i : Nat) (m : ModelInfo) : String :=
  match m.name with
  | none => toString i
  | some s => if s = "" then toString i else s

/-- Property-reference path of
`repack_model_step.properties.ModelArtifacts.S3ModelArtifacts` for the repack
step of the given name. -/
def repackArtifactPath (stepName : String) : String :=
  "Steps." ++ stepName ++ ".ModelArtifacts.S3ModelArtifacts"

/-- The `_RepackModelStep` built at loop index `i` for model `m` (lines
167-183): name `"{name}-RepackModel-{name_base}"`, the caller-supplied
`depends_on`, the repack retry bucket, the model's artifact fields and the
owning model's VPC settings. -/
def repackStepFor (cn : String) (dp : Option (List String)) (rt : Option (List Nat))
    (sg sb : Option (List String)) (i : Nat) (m : ModelInfo) : Step :=
  .repack (cn ++ "-" ++ repackModelNameBase ++ "-" ++ nameBaseOf i m) dp rt
    m.modelData m.entryPoint m.sourceDir sb sg

/-- Container patch of lines 186-196, performed immediately after a repack
step is appended: select the container — `Containers[i]` of the create request
for a `PipelineModel`, its `PrimaryContainer` for a plain `Model`, otherwise
`InferenceSpecification.Containers[i]` of the register request — and overwrite
its `ModelDataUrl` with `v`.  A missing dictionary entry or an out-of-range
index is the Python KeyError / IndexError. -/
def patchContainer (isPipe : Bool) (i : Nat) (v : ModelDataVal)
    (c : Option CreateModelRequest) (r : Option RegisterModelRequest) :
    Except ComposeError (Option CreateModelRequest × Option RegisterModelRequest) :=
  match c with
  | some cr =>
    if isPipe then
      match cr.containers with
      | some cs =>
        if h : i < cs.length then
          let cs' := cs.set i { cs[i] with modelDataUrl := some v }
          .ok (some { cr with containers := some cs' }, r)
        else .error .payloadKeyError
      | none => .error .payloadKeyError
    else
      match cr.primaryContainer with
      | some pc =>
        let pc' := { pc with modelDataUrl := some v }
        .ok (some { cr with primaryContainer := some pc' }, r)
      | none => .error .payloadKeyError
  | none =>
    match r with
    | some rr =>
      match rr.inferenceSpecificationContainers with
      | some cs =>
        if h : i < cs.length then
          let cs' := cs.set i { cs[i] with modelDataUrl := some v }
          .ok (c, some { rr with inferenceSpecificationContainers := some cs' })
        else .error .payloadKeyError
      | none => .error .payloadKeyError
    | none => .error .payloadKeyError

/-- The `for i, model in enumerate(model_list)` loop of lines 161-196: for
each flagged model append a repack step and immediately patch the matching
container of the pending payload with the repack step's output-artifact
property reference.  The two request payloads are threaded, embedding the
in-place dictionary mutation. -/
def repackLoop (cn : String) (nr : List Nat) (dp : Option (List String))
    (rt : Option (List Nat)) (sg sb : Option (List String)) (isPipe : Bool) :
    List ModelInfo → Nat → Option CreateModelRequest → Option RegisterModelRequest →
    Except ComposeError (List Step × Option CreateModelRequest × Option RegisterModelRequest)
  | [], _, c, r => .ok ([], c, r)
  | m :: ms, i, c, r =>
    if needRepackFlag nr m then
      let stepName := cn ++ "-" ++ repackModelNameBase ++ "-" ++ nameBaseOf i m
      match patchContainer isPipe i (.propRef (repackArtifactPath stepName)) c r with
      | .error e => .error e
      | .ok (c', r') =>
        match repackLoop cn nr dp rt sg sb isPipe ms (i + 1) c' r' with
        | .error e => .error e
        | .ok (steps, c'', r'') => .ok (repackStepFor cn dp rt sg sb i m :: steps, c'', r'')
    else repackLoop cn nr dp rt sg sb isPipe ms (i + 1) c r

/-- The `SecurityGroupIds` read of lines 155-158. -/
def sgOf (mobj : ModelObj) : Option (List String) :=
  match mobj.vpcConfig with
  | some v => v.securityGroupIds
  | none => none

/-- The `Subnets` read of lines 156-159. -/
def sbOf (mobj : ModelObj) : Option (List String) :=
  match mobj.vpcConfig with
  | some v => v.subnets
  | none => none

/-- The `_append_repack_model_step` body (lines 145-196): dispatch on the
model shape — an unrecognized shape logs "No models to repack" and produces no
steps — then run the repack loop over the constituent models from index 0. -/
def appendRepack (cn : String) (mobj : ModelObj) (nr : List Nat)
    (dp : Option (List String)) (rt : Option (List Nat))
    (c : Option CreateModelRequest) (r : Option RegisterModelRequest) :
    Except ComposeError
      (List Step × Option CreateModelRequest × Option RegisterModelRequest × List String) :=
  match mobj.ref with
  | .other => .ok ([], c, r, ["No models to repack"])
  | .pipelineModel ms =>
    match repackLoop cn nr dp rt (sgOf mobj) (sbOf mobj) true ms 0 c r with
    | .error e => .error e
    | .ok (st, c', r') => .ok (st, c', r', [])
  | .singleModel m =>
    match repackLoop cn nr dp rt (sgOf mobj) (sbOf mobj) false [m] 0 c r with
    | .error e => .error e
    | .ok (st, c', r') => .ok (st, c', r', [])

/-- The `ModelStep.__init__` composition (lines 39-143): the three validation
checks, retry-policy distribution, the conditional repack stage, then exactly
one register step (when register arguments are present) or create step, whose
`depends_on` is attached only when the need-repack indicator is empty. -/
def mkModelStep (nm : String) (input : ModelStepInput) (dp : Option (List String))
    (rp : Option RetryArg) : Except ComposeError ComposeOut :=
  match input with
  | .notModelStepArguments => .error .stepArgsTypeError
  | .args a =>
    if a.createModelRequest.isSome = a.createModelPackageRequest.isSome then
      .error .mutualExclusionValueError
    else if a.model.sessionIsPipeline = false then
      .error .sessionTypeError
    else
      let buckets := distributeRetry rp
      let repackRes :=
        if a.needRuntimeRepack.isEmpty then
          .ok ([], a.createModelRequest, a.createModelPackageRequest, [])
        else
          appendRepack nm a.model a.needRuntimeRepack dp buckets.2.2
            a.createModelRequest a.createModelPackageRequest
      match repackRes with
      | .error e => .error e
      | .ok (repSteps, c', r', warns) =>
        match r' with
        | some reg =>
          .ok { steps := repSteps ++
                  [.register (nm ++ "-" ++ registerModelNameBase) reg
                    (if a.needRuntimeRepack.isEmpty then addDependsOn none dp else none)
                    buckets.2.1],
                warnings := warns }
        | none =>
          .ok { steps := repSteps ++
                  [.create (nm ++ "-" ++ createModelNameBase) c'
                    (if a.needRuntimeRepack.isEmpty then addDependsOn none dp else none)
                    buckets.1],
                warnings := warns }

/-- Python's `enumerate`, starting at index `i`. -/
def pyEnumerate (i : Nat) : List ModelInfo → List (Nat × ModelInfo)
  | [] => []
  | m :: ms => (i, m) :: pyEnumerate (i + 1) ms

/-- Declarative description (following the spec's words) of the repack steps a
composition must produce: one step per constituent model flagged by the
need-repack indicator, in container order, built exactly as `repackStepFor`
does from the composition's inputs.  Compared against the composer's actual
output in the claims. -/
def specRepackSteps (nm : String) (dp : Option (List String)) (rp : Option RetryArg)
    (a : ModelStepArguments) : List Step :=
  ((pyEnumerate 0 (constituentModels a.model.ref)).filter
      (fun p => needRepackFlag a.needRuntimeRepack p.2)).map
    (fun p => repackStepFor nm dp (distributeRetry rp).2.2 (sgOf a.model) (sbOf a.model) p.1 p.2)

/-- Shape contract of the packaging layer (spec, section 6) for the repack
loop run with containers accessed up to index `bound - 1`: the dictionary
entry the patch will read exists and the container list is long enough. -/
def LoopAligned (ip : Bool) (bound : Nat) (c : Option CreateModelRequest)
    (r : Option RegisterModelRequest) : Prop :=
  match c with
  | some cr =>
    if ip = true then ∃ cs, cr.containers = some cs ∧ bound ≤ cs.length
    else cr.primaryContainer.isSome = true
  | none =>
    ∃ rr cs, r = some rr ∧ rr.inferenceSpecificationContainers = some cs ∧ bound ≤ cs.length

/-- Well-shapedness of step arguments: the container payload satisfies the
packaging-layer contract whenever the repack loop will actually run (a
request that never reaches the loop, or that fails validation first, is
unconstrained). -/
def Aligned (a : ModelStepArguments) : Prop :=
  a.needRuntimeRepack = [] ∨ a.model.ref = .other ∨
  a.createModelRequest.isSome = a.createModelPackageRequest.isSome ∨
  a.model.sessionIsPipeline = false ∨
  LoopAligned a.model.ref.isPipe (constituentModels a.model.ref).length
    a.createModelRequest a.createModelPackageRequest

/-- Well-shapedness lifted to the raw constructor input. -/
def AlignedInput : ModelStepInput → Prop
  | .notModelStepArguments => True
  | .args a => Aligned a

/-- Malformedness of a construction request, exactly as the claim enumerates
it: wrong `step_args` type, violated create-xor-register exclusivity, or a
non-pipeline session. -/
def MalformedInput : ModelStepInput → Prop
  | .notModelStepArguments => True
  | .args a =>
    a.createModelRequest.isSome = a.createModelPackageRequest.isSome ∨
    a.model.sessionIsPipeline = false

/-- Concrete single model used by the concrete-input theorems. -/
def exModelM : ModelInfo :=
  { pid := 1, name := some "m", modelData := some "s3://b/model.tar.gz",
    entryPoint := some "inference.py", sourceDir := none }

/-- Concrete primary container of the create request. -/
def exPrimary : Container :=
  { modelDataUrl := some (.s3 "s3://b/model.tar.gz"), rest := 7 }

/-- Concrete single-container create request. -/
def exCreateReq : CreateModelRequest :=
  { primaryContainer := some exPrimary, containers := none, rest := 3 }

/-- Concrete step arguments whose need-repack indicator is non-empty but names
no constituent model (id 999 is not the id of `exModelM`). -/
def exArgsGhostRepack : ModelStepArguments :=
  { model := { sessionIsPipeline := true, ref := .singleModel exModelM, vpcConfig := none },
    createModelRequest := some exCreateReq,
    createModelPackageRequest := none,
    needRuntimeRepack := [999] }

/-- Concrete step arguments with an empty need-repack indicator. -/
def exArgsNoRepack : ModelStepArguments :=
  { exArgsGhostRepack with needRuntimeRepack := [] }

/-- Concrete step arguments that flag `exModelM` itself for repacking. -/
def exArgsRepack : ModelStepArguments :=
  { exArgsGhostRepack with needRuntimeRepack := [1] }

/-- Concrete constituent models of a two-container pipeline model: the first
unnamed, the second named. -/
def exModelA : ModelInfo :=
  { pid := 10, name := none, modelData := some "s3://b/a.tar.gz",
    entryPoint := some "a.py", sourceDir := none }

/-- Second concrete constituent model. -/
def exModelB : ModelInfo :=
  { pid := 11, name := some "bee", modelData := some "s3://b/b.tar.gz",
    entryPoint := some "b.py", sourceDir := none }

/-- Concrete container list of the pipeline-model create request. -/
def exContainers : List Container :=
  [{ modelDataUrl := some (.s3 "s3://b/a.tar.gz"), rest := 1 },
   { modelDataUrl := some (.s3 "s3://b/b.tar.gz"), rest := 2 }]

/-- Concrete multi-container create request. -/
def exCreateReqPipe : CreateModelRequest :=
  { primaryContainer := none, containers := some exContainers, rest := 4 }

/-- Concrete pipeline-model step arguments flagging both constituents. -/
def exArgsPipe : ModelStepArguments :=
  { model := { sessionIsPipeline := true, ref := .pipelineModel [exModelA, exModelB],
               vpcConfig := some { securityGroupIds := some ["sg-1"], subnets := some ["sub-1"] } },
    createModelRequest := some exCreateReqPipe,
    createModelPackageRequest := none,
    needRuntimeRepack := [10, 11] }

/-- Concrete register request used by the patch theorems. -/
def exRegisterReq : RegisterModelRequest :=
  { inferenceSpecificationContainers := some exContainers, rest := 9 }

/-- Concrete step arguments whose model is of an unrecognized shape while the
need-repack indicator is non-empty. -/
def exArgsOther : ModelStepArguments :=
  { model := { sessionIsPipeline := true, ref := .other, vpcConfig := none },
    createModelRequest := none,
    createModelPackageRequest := some exRegisterReq,
    needRuntimeRepack := [5] }

/-- Composition output for `exArgsGhostRepack` with caller dependency list
`["UpstreamStep"]`: no repack step is produced, yet the create step's
`depends_on` is suppressed. -/
def exGhostOut : ComposeOut :=
  { steps := [.create "MyModel-CreateModel" (some exCreateReq) none none],
    warnings := [] }

/-- Composition output for `exArgsNoRepack` with caller dependency list
`["A"]`. -/
def exNoRepackOut : ComposeOut :=
  { steps := [.create "MyModel-CreateModel" (some exCreateReq) (some ["A"]) none],
    warnings := [] }

/-- Composition output for `exArgsPipe` with caller dependency list `["U"]`. -/
def exPipeOut : ComposeOut :=
  { steps :=
      [.repack "N-RepackModel-0" (some ["U"]) none (some "s3://b/a.tar.gz")
         (some "a.py") none (some ["sub-1"]) (some ["sg-1"]),
       .repack "N-RepackModel-bee" (some ["U"]) none (some "s3://b/b.tar.gz")
         (some "b.py") none (some ["sub-1"]) (some ["sg-1"]),
       .create "N-CreateModel"
         (some { primaryContainer := none,
                 containers := some
                   [{ modelDataUrl := some
                        (.propRef "Steps.N-RepackModel-0.ModelArtifacts.S3ModelArtifacts"),
                      rest := 1 },
                    { modelDataUrl := some
                        (.propRef "Steps.N-RepackModel-bee.ModelArtifacts.S3ModelArtifacts"),
                      rest := 2 }],
                 rest := 4 })
         none none],
    warnings := [] }

/-!
Helper lemmas shared by the claim theorems.
-/

/-- A successful container patch never changes which of the two request
payloads is present. -/
theorem patchContainer_ok_presence {ip : Bool} {i : Nat} {v : ModelDataVal}
    {c c' : Option CreateModelRequest} {r r' : Option RegisterModelRequest}
    (h : patchContainer ip i v c r = .ok (c', r')) :
    c'.isSome = c.isSome ∧ r'.isSome = r.isSome := by
  unfold patchContainer at h
  repeat' split at h
  all_goals simp at h
  all_goals obtain ⟨h1, h2⟩ := h
  all_goals subst h1
  all_goals subst h2
  all_goals simp_all

/-- A successful repack loop never changes which of the two request payloads
is present. -/
theorem repackLoop_ok_presence (cn : String) (nr : List Nat) (dp : Option (List String))
    (rt : Option (List Nat)) (sg sb : Option (List String)) (ip : Bool) :
    ∀ (ms : List ModelInfo) (i : Nat) (c : Option CreateModelRequest)
      (r : Option RegisterModelRequest) st c' r',
      repackLoop cn nr dp rt sg sb ip ms i c r = .ok (st, c', r') →
      c'.isSome = c.isSome ∧ r'.isSome = r.isSome := by
  intro ms
  induction ms with
  | nil =>
    intro i c r st c' r' h
    simp only [repackLoop, Except.ok.injEq, Prod.mk.injEq] at h
    obtain ⟨-, h2, h3⟩ := h
    simp [← h2, ← h3]
  | cons m ms ih =>
    intro i c r st c' r' h
    simp only [repackLoop] at h
    split at h
    · split at h
      · exact absurd h (by simp)
      · rename_i c₁r₁ hpatch
        split at h
        · exact absurd h (by simp)
        · rename_i st₂c₂r₂ hrec
          simp only [Except.ok.injEq, Prod.mk.injEq] at h
          obtain ⟨-, h2, h3⟩ := h
          have p1 := patchContainer_ok_presence hpatch
          have p2 := ih _ _ _ _ _ _ hrec
          subst h2; subst h3
          exact ⟨p2.1.trans p1.1, p2.2.trans p1.2⟩
    · exact ih _ _ _ _ _ _ h

/-- Characterization of the steps a successful repack loop appends: exactly
the flagged constituents, in container order, each built by `repackStepFor`
at its positional index. -/
theorem repackLoop_ok_steps (cn : String) (nr : List Nat) (dp : Option (List String))
    (rt : Option (List Nat)) (sg sb : Option (List String)) (ip : Bool) :
    ∀ (ms : List ModelInfo) (i : Nat) (c : Option CreateModelRequest)
      (r : Option RegisterModelRequest) st c' r',
      repackLoop cn nr dp rt sg sb ip ms i c r = .ok (st, c', r') →
      st = ((pyEnumerate i ms).filter (fun p => needRepackFlag nr p.2)).map
        (fun p => repackStepFor cn dp rt sg sb p.1 p.2) := by
  intro ms
  induction ms with
  | nil =>
    intro i c r st c' r' h
    simp only [repackLoop, Except.ok.injEq, Prod.mk.injEq] at h
    simp [pyEnumerate, ← h.1]
  | cons m ms ih =>
    intro i c r st c' r' h
    simp only [repackLoop] at h
    split at h
    · rename_i hflag
      split at h
      · exact absurd h (by simp)
      · rename_i c₁r₁ hpatch
        split at h
        · exact absurd h (by simp)
        · rename_i st₂c₂r₂ hrec
          simp only [Except.ok.injEq, Prod.mk.injEq] at h
          obtain ⟨h1, -, -⟩ := h
          have hrest := ih _ _ _ _ _ _ hrec
          simp [pyEnumerate, hflag, ← h1, hrest]
    · rename_i hflag
      have hrest := ih _ _ _ _ _ _ h
      simp [pyEnumerate, hflag, hrest]

/-- Characterization of a successful `_append_repack_model_step`: the steps
are the flagged constituents' repack steps, payload presence is unchanged, and
the warning list is "No models to repack" exactly on an unrecognized model
shape. -/
theorem appendRepack_ok_spec {cn : String} {mobj : ModelObj} {nr : List Nat}
    {dp : Option (List String)} {rt : Option (List Nat)}
    {c c' : Option CreateModelRequest} {r r' : Option RegisterModelRequest}
    {st : List Step} {w : List String}
    (h : appendRepack cn mobj nr dp rt c r = .ok (st, c', r', w)) :
    st = ((pyEnumerate 0 (constituentModels mobj.ref)).filter
        (fun p => needRepackFlag nr p.2)).map
      (fun p => repackStepFor cn dp rt (sgOf mobj) (sbOf mobj) p.1 p.2) ∧
    c'.isSome = c.isSome ∧ r'.isSome = r.isSome ∧
    w = (if mobj.ref = .other then ["No models to repack"] else []) := by
  unfold appendRepack at h
  split at h
  · rename_i heq
    simp only [Except.ok.injEq, Prod.mk.injEq] at h
    obtain ⟨h1, h2, h3, h4⟩ := h
    subst h1; subst h2; subst h3; subst h4
    simp [heq, constituentModels, pyEnumerate]
  · rename_i ms heq
    split at h
    · exact absurd h (by simp)
    · rename_i stcr hrec
      simp only [Except.ok.injEq, Prod.mk.injEq] at h
      obtain ⟨h1, h2, h3, h4⟩ := h
      subst h1; subst h2; subst h3; subst h4
      have hst := repackLoop_ok_steps cn nr dp rt (sgOf mobj) (sbOf mobj) true _ _ _ _ _ _ _ hrec
      have hp := repackLoop_ok_presence cn nr dp rt (sgOf mobj) (sbOf mobj) true _ _ _ _ _ _ _ hrec
      simp [heq, constituentModels, hst, hp.1, hp.2]
  · rename_i m heq
    split at h
    · exact absurd h (by simp)
    · rename_i stcr hrec
      simp only [Except.ok.injEq, Prod.mk.injEq] at h
      obtain ⟨h1, h2, h3, h4⟩ := h
      subst h1; subst h2; subst h3; subst h4
      have hst := repackLoop_ok_steps cn nr dp rt (sgOf mobj) (sbOf mobj) false _ _ _ _ _ _ _ hrec
      have hp := repackLoop_ok_presence cn nr dp rt (sgOf mobj) (sbOf mobj) false _ _ _ _ _ _ _ hrec
      simp [heq, constituentModels, hst, hp.1, hp.2]

/-- With an empty need-repack indicator no constituent is flagged, so the
declarative repack-step list is empty. -/
theorem specRepackSteps_of_isEmpty {nm : String} {dp : Option (List String)}
    {rp : Option RetryArg} {a : ModelStepArguments}
    (h : a.needRuntimeRepack.isEmpty = true) :
    specRepackSteps nm dp rp a = [] := by
  simp [specRepackSteps, needRepackFlag, h]

/-- Structure of every successful composition: the flagged repack steps
followed by exactly one final step, which is a register step exactly when
register arguments are present, carries the create / register retry bucket and
name, and receives the caller's `depends_on` only when the need-repack
indicator is empty. -/
theorem mkModelStep_ok_spec {nm : String} {dp : Option (List String)}
    {rp : Option RetryArg} {a : ModelStepArguments} {out : ComposeOut}
    (hok : mkModelStep nm (.args a) dp rp = .ok out) :
    ∃ final : Step,
      out.steps = specRepackSteps nm dp rp a ++ [final] ∧
      final.isRepack = false ∧
      final.isRegister = a.createModelPackageRequest.isSome ∧
      final.isCreate = !a.createModelPackageRequest.isSome ∧
      final.name = nm ++ "-" ++
        (if a.createModelPackageRequest.isSome then registerModelNameBase
         else createModelNameBase) ∧
      final.dependsOn = (if a.needRuntimeRepack.isEmpty then addDependsOn none dp else none) ∧
      out.warnings = (if a.needRuntimeRepack.isEmpty = false ∧ a.model.ref = .other
        then ["No models to repack"] else []) := by
  by_cases hxor : a.createModelRequest.isSome = a.createModelPackageRequest.isSome
  · simp [mkModelStep, hxor] at hok
  by_cases hsess : a.model.sessionIsPipeline = false
  · simp [mkModelStep, hxor, hsess] at hok
  by_cases hne : a.needRuntimeRepack.isEmpty
  · cases hr : a.createModelPackageRequest with
    | some reg =>
      have hcs : a.createModelRequest.isSome = false := by
        cases hb : a.createModelRequest.isSome with
        | false => rfl
        | true => exact absurd (by rw [hb, hr]; rfl) hxor
      simp only [mkModelStep, hcs, hr, Option.isSome_some, Bool.false_eq_true, if_false,
        hne, if_true, Except.ok.injEq, List.nil_append] at hok
      rw [if_neg (by simp [hsess] : ¬a.model.sessionIsPipeline = false)] at hok
      simp only [Except.ok.injEq] at hok
      subst hok
      refine ⟨Step.register (nm ++ "-" ++ registerModelNameBase) reg (addDependsOn none dp)
          (distributeRetry rp).2.1, ?_, ?_, ?_, ?_, ?_, ?_, ?_⟩ <;>
        simp [specRepackSteps_of_isEmpty hne, Step.isRepack, Step.isRegister, Step.isCreate,
          Step.name, Step.dependsOn, hr, hne]
    | none =>
      have hcs : a.createModelRequest.isSome = true := by
        cases hb : a.createModelRequest.isSome with
        | true => rfl
        | false => exact absurd (by rw [hb, hr]; rfl) hxor
      simp only [mkModelStep, hcs, hr, Option.isSome_none, Bool.true_eq_false, if_false,
        hne, if_true, Except.ok.injEq, List.nil_append] at hok
      rw [if_neg (by simp [hsess] : ¬a.model.sessionIsPipeline = false)] at hok
      simp only [Except.ok.injEq] at hok
      subst hok
      refine ⟨Step.create (nm ++ "-" ++ createModelNameBase) a.createModelRequest
          (addDependsOn none dp) (distributeRetry rp).1, ?_, ?_, ?_, ?_, ?_, ?_, ?_⟩ <;>
        simp [specRepackSteps_of_isEmpty hne, Step.isRepack, Step.isRegister, Step.isCreate,
          Step.name, Step.dependsOn, hr, hne]
  · have hne' : a.needRuntimeRepack.isEmpty = false := by simpa using hne
    cases hA : appendRepack nm a.model a.needRuntimeRepack dp (distributeRetry rp).2.2
        a.createModelRequest a.createModelPackageRequest with
    | error e => simp [mkModelStep, hxor, hsess, hne', hA] at hok
    | ok q =>
      obtain ⟨st, c', r', w⟩ := q
      have hsp := appendRepack_ok_spec hA
      cases hr' : r' with
      | some reg =>
        have hrsome : a.createModelPackageRequest.isSome = true := by
          rw [← hsp.2.2.1, hr']; simp
        simp only [mkModelStep, hxor, hsess, hne', hA, hr', Bool.false_eq_true,
          Bool.true_eq_false, if_false, Except.ok.injEq] at hok
        subst hok
        refine ⟨Step.register (nm ++ "-" ++ registerModelNameBase) reg none
            (distributeRetry rp).2.1, ?_, ?_, ?_, ?_, ?_, ?_, ?_⟩ <;>
          simp [specRepackSteps, hsp.1, hsp.2.2.2, Step.isRepack, Step.isRegister,
            Step.isCreate, Step.name, Step.dependsOn, hrsome, hne']
      | none =>
        have hrnone : a.createModelPackageRequest.isSome = false := by
          rw [← hsp.2.2.1, hr']; simp
        simp only [mkModelStep, hxor, hsess, hne', hA, hr', Bool.false_eq_true,
          Bool.true_eq_false, if_false, Except.ok.injEq] at hok
        subst hok
        refine ⟨Step.create (nm ++ "-" ++ createModelNameBase) c' none
            (distributeRetry rp).1, ?_, ?_, ?_, ?_, ?_, ?_, ?_⟩ <;>
          simp [specRepackSteps, hsp.1, hsp.2.2.2, Step.isRepack, Step.isRegister,
            Step.isCreate, Step.name, Step.dependsOn, hrnone, hne']

/-- The create / register step of a successful composition (the only member
that is not a repack step) carries the caller's `depends_on` exactly when the
need-repack indicator is empty. -/
theorem createRegister_mem_spec {nm : String} {dp : Option (List String)}
    {rp : Option RetryArg} {a : ModelStepArguments} {out : ComposeOut} {s : Step}
    (hok : mkModelStep nm (.args a) dp rp = .ok out)
    (hs : s ∈ out.steps) (hcr : (s.isCreate || s.isRegister) = true) :
    s.dependsOn = (if a.needRuntimeRepack.isEmpty then addDependsOn none dp else none) := by
  obtain ⟨final, hsteps, -, -, -, -, hdep, -⟩ := mkModelStep_ok_spec hok
  rw [hsteps] at hs
  rcases List.mem_append.mp hs with hmem | hmem
  · exfalso
    simp only [specRepackSteps, List.mem_map] at hmem
    obtain ⟨p, -, hp⟩ := hmem
    rw [← hp] at hcr
    simp [repackStepFor, Step.isCreate, Step.isRegister] at hcr
  · have hsf : s = final := by simpa using hmem
    rw [hsf]
    exact hdep

/-- Attaching the caller's `depends_on` to a fresh step yields exactly the
caller's edge list. -/
theorem addDependsOn_none_edges (dp : Option (List String)) :
    (addDependsOn none dp).getD [] = dp.getD [] := by
  cases dp with
  | none => rfl
  | some l => cases l <;> rfl

/-- Filtering an enumeration on a predicate of the element alone has the same
length as filtering the underlying list. -/
theorem pyEnumerate_filter_length (nr : List Nat) :
    ∀ (l : List ModelInfo) (i : Nat),
      ((pyEnumerate i l).filter (fun p => needRepackFlag nr p.2)).length =
        (l.filter (needRepackFlag nr)).length := by
  intro l
  induction l with
  | nil => intro i; simp [pyEnumerate]
  | cons m ms ih =>
    intro i
    by_cases hf : needRepackFlag nr m <;>
      simp [pyEnumerate, hf, ih (i + 1)]

/-- When the indicator lists exactly `k` distinct ids, all of them ids of
constituents whose ids are themselves distinct, exactly `k` constituents are
flagged. -/
theorem filter_flag_length_eq {l : List ModelInfo} {nr : List Nat}
    (hnd : (l.map ModelInfo.pid).Nodup) (hnrnd : nr.Nodup)
    (hsub : ∀ x ∈ nr, x ∈ l.map ModelInfo.pid) :
    (l.filter (needRepackFlag nr)).length = nr.length := by
  cases hnr : nr with
  | nil => simp [needRepackFlag]
  | cons y ys =>
    have hne : nr.isEmpty = false := by rw [hnr]; rfl
    rw [← hnr] at *
    have hflag : l.filter (needRepackFlag nr) =
        l.filter (fun m => decide (m.pid ∈ nr)) := by
      apply List.filter_congr
      intro m _
      simp [needRepackFlag, hne]
    rw [hflag]
    have hmapped : (l.filter (fun m => decide (m.pid ∈ nr))).length =
        ((l.map ModelInfo.pid).filter (fun x => decide (x ∈ nr))).length := by
      rw [List.filter_map, List.length_map]
      rfl
    rw [hmapped]
    have hfn : ((l.map ModelInfo.pid).filter (fun x => decide (x ∈ nr))).Nodup :=
      hnd.filter _
    have hfins : ((l.map ModelInfo.pid).filter (fun x => decide (x ∈ nr))).toFinset =
        nr.toFinset := by
      ext x
      simp only [List.toFinset_filter, Finset.mem_filter, List.mem_toFinset, decide_eq_true_eq]
      exact ⟨fun h => h.2, fun h => ⟨hsub x h, h⟩⟩
    exact (List.perm_of_nodup_nodup_toFinset_eq hfn hnrnd hfins).length_eq

/-- Under the packaging contract, a container patch at an in-range index
succeeds and preserves the contract. -/
theorem patchContainer_ok_of_loopAligned {ip : Bool} {b i : Nat} {v : ModelDataVal}
    {c : Option CreateModelRequest} {r : Option RegisterModelRequest}
    (hla : LoopAligned ip b c r) (hi : i < b) :
    ∃ c' r', patchContainer ip i v c r = .ok (c', r') ∧ LoopAligned ip b c' r' := by
  cases c with
  | some cr =>
    cases ip with
    | true =>
      simp only [LoopAligned, if_true] at hla
      obtain ⟨cs, hcs, hb⟩ := hla
      have hlt : i < cs.length := lt_of_lt_of_le hi hb
      refine ⟨some { cr with containers := some (cs.set i { cs[i] with modelDataUrl := some v }) }, r, ?_, ?_⟩
      · simp [patchContainer, hcs, hlt]
      · simp only [LoopAligned, if_true]
        exact ⟨_, rfl, by simpa [List.length_set] using hb⟩
    | false =>
      simp only [LoopAligned] at hla
      rw [if_neg (by simp)] at hla
      obtain ⟨pc, hpc⟩ := Option.isSome_iff_exists.mp hla
      refine ⟨some { cr with primaryContainer := some { pc with modelDataUrl := some v } }, r, ?_, ?_⟩
      · simp [patchContainer, hpc]
      · simp [LoopAligned]
  | none =>
    simp only [LoopAligned] at hla
    obtain ⟨rr, cs, hr, hcs, hb⟩ := hla
    have hlt : i < cs.length := lt_of_lt_of_le hi hb
    refine ⟨none, some { rr with inferenceSpecificationContainers := some (cs.set i { cs[i] with modelDataUrl := some v }) }, ?_, ?_⟩
    · simp [patchContainer, hr, hcs, hlt]
    · simp only [LoopAligned]
      exact ⟨_, _, rfl, rfl, by simpa [List.length_set] using hb⟩

/-- Under the packaging contract the repack loop always succeeds. -/
theorem repackLoop_ok_of_loopAligned (cn : String) (nr : List Nat)
    (dp : Option (List String)) (rt : Option (List Nat)) (sg sb : Option (List String))
    (ip : Bool) :
    ∀ (ms : List ModelInfo) (i : Nat) (c : Option CreateModelRequest)
      (r : Option RegisterModelRequest), LoopAligned ip (i + ms.length) c r →
      ∃ q, repackLoop cn nr dp rt sg sb ip ms i c r = .ok q := by
  intro ms
  induction ms with
  | nil => intro i c r _; exact ⟨([], c, r), by simp [repackLoop]⟩
  | cons m ms ih =>
    intro i c r hla
    have heq : i + (m :: ms).length = (i + 1) + ms.length := by
      simp [List.length_cons]; omega
    by_cases hf : needRepackFlag nr m
    · obtain ⟨c', r', hp, hla'⟩ :=
        patchContainer_ok_of_loopAligned (i := i) (v :=
          .propRef (repackArtifactPath (cn ++ "-" ++ repackModelNameBase ++ "-" ++ nameBaseOf i m)))
          hla (by simp [List.length_cons])
      rw [heq] at hla'
      obtain ⟨⟨st, c'', r''⟩, hq⟩ := ih (i + 1) c' r' hla'
      exact ⟨(repackStepFor cn dp rt sg sb i m :: st, c'', r''),
        by simp [repackLoop, hf, hp, hq]⟩
    · rw [heq] at hla
      obtain ⟨q, hq⟩ := ih (i + 1) c r hla
      exact ⟨q, by simp [repackLoop, hf, hq]⟩

/-- Every validated, contract-satisfying request composes successfully. -/
theorem mk_ok_of_valid {nm : String} {dp : Option (List String)} {rp : Option RetryArg}
    {a : ModelStepArguments}
    (hxor : ¬a.createModelRequest.isSome = a.createModelPackageRequest.isSome)
    (hsess : ¬a.model.sessionIsPipeline = false)
    (hAl : Aligned a) :
    ∃ out, mkModelStep nm (.args a) dp rp = .ok out := by
  by_cases hne : a.needRuntimeRepack.isEmpty
  · cases hr : a.createModelPackageRequest with
    | some reg =>
      refine ⟨{ steps := [.register (nm ++ "-" ++ registerModelNameBase) reg (addDependsOn none dp) (distributeRetry rp).2.1], warnings := [] }, ?_⟩
      rw [mkModelStep, if_neg hxor, if_neg hsess]
      simp [hne, hr]
    | none =>
      refine ⟨{ steps := [.create (nm ++ "-" ++ createModelNameBase) a.createModelRequest (addDependsOn none dp) (distributeRetry rp).1], warnings := [] }, ?_⟩
      rw [mkModelStep, if_neg hxor, if_neg hsess]
      simp [hne, hr]
  · have hne' : a.needRuntimeRepack.isEmpty = false := by simpa using hne
    have happ : ∃ q, appendRepack nm a.model a.needRuntimeRepack dp (distributeRetry rp).2.2
        a.createModelRequest a.createModelPackageRequest = .ok q := by
      rcases hAl with h0 | hother | hx | hs | hla
      · exact absurd (by simp [h0] : a.needRuntimeRepack.isEmpty = true) (by simp [hne'])
      · exact ⟨([], a.createModelRequest, a.createModelPackageRequest, ["No models to repack"]),
          by simp [appendRepack, hother]⟩
      · exact absurd hx hxor
      · exact absurd hs hsess
      · cases href : a.model.ref with
        | other =>
          exact ⟨([], a.createModelRequest, a.createModelPackageRequest, ["No models to repack"]),
            by simp [appendRepack, href]⟩
        | pipelineModel ms =>
          rw [href] at hla
          simp only [constituentModels, ModelShape.isPipe] at hla
          obtain ⟨⟨st, c', r'⟩, hq⟩ :=
            repackLoop_ok_of_loopAligned nm a.needRuntimeRepack dp (distributeRetry rp).2.2
              (sgOf a.model) (sbOf a.model) true ms 0 _ _ (by simpa using hla)
          exact ⟨(st, c', r', []), by simp [appendRepack, href, hq]⟩
        | singleModel m =>
          rw [href] at hla
          simp only [constituentModels, ModelShape.isPipe] at hla
          obtain ⟨⟨st, c', r'⟩, hq⟩ :=
            repackLoop_ok_of_loopAligned nm a.needRuntimeRepack dp (distributeRetry rp).2.2
              (sgOf a.model) (sbOf a.model) false [m] 0 _ _ (by simpa using hla)
          exact ⟨(st, c', r', []), by simp [appendRepack, href, hq]⟩
    obtain ⟨⟨st, c', r', w⟩, hq⟩ := happ
    cases hr' : r' with
    | some reg =>
      refine ⟨{ steps := st ++ [.register (nm ++ "-" ++ registerModelNameBase) reg none (distributeRetry rp).2.1], warnings := w }, ?_⟩
      rw [mkModelStep, if_neg hxor, if_neg hsess]
      simp [hne', hq, hr']
    | none =>
      refine ⟨{ steps := st ++ [.create (nm ++ "-" ++ createModelNameBase) c' none (distributeRetry rp).1], warnings := w }, ?_⟩
      rw [mkModelStep, if_neg hxor, if_neg hsess]
      simp [hne', hq, hr']

/-!
Claim theorems.
-/

/-- C1 (counterexample): with a non-empty need-repack indicator naming no
constituent model, zero repack steps are produced and yet the create step does
not carry the caller-supplied `depends_on` list, refuting "when none exists it
carries exactly the caller-supplied depends_on list". -/
theorem c1_dependency_edges_counterexample :
    mkModelStep "MyModel" (.args exArgsGhostRepack) (some ["UpstreamStep"]) none = .ok exGhostOut ∧
    exGhostOut.steps.filter Step.isRepack = [] ∧
    ¬(∀ s ∈ exGhostOut.steps, (s.isCreate || s.isRegister) = true →
        s.dependsOnEdges = ["UpstreamStep"]) :=
  ⟨rfl, rfl, by decide⟩

/-- C1 (amended): the create/register step's explicit dependency edges are
keyed on the need-repack indicator, not on repack steps actually existing:
with an empty indicator the step carries exactly the caller-supplied
`depends_on` edges, with a non-empty indicator it carries none. -/
theorem c1_dependency_edges_amended {nm : String} {dp : Option (List String)}
    {rp : Option RetryArg} {a : ModelStepArguments} {out : ComposeOut}
    (hok : mkModelStep nm (.args a) dp rp = .ok out) :
    ∀ s ∈ out.steps, (s.isCreate || s.isRegister) = true →
      s.dependsOnEdges = (if a.needRuntimeRepack = [] then dp.getD [] else []) := by
  intro s hs hcr
  have hd := createRegister_mem_spec hok hs hcr
  simp only [Step.dependsOnEdges, hd]
  by_cases hnil : a.needRuntimeRepack = []
  · simp [hnil, addDependsOn_none_edges]
  · have hne' : a.needRuntimeRepack.isEmpty = false := by
      simpa [List.isEmpty_eq_false] using hnil
    simp [hnil, hne']

/-- C1 (witness for the amended claim): a concrete no-repack composition whose
create step carries exactly the caller's edge list. -/
theorem c1_dependency_edges_amended_witness :
    (Step.create "MyModel-CreateModel" (some exCreateReq) (some ["A"]) none).dependsOnEdges =
      (if exArgsNoRepack.needRuntimeRepack = [] then (some ["A"] : Option (List String)).getD []
       else []) :=
  c1_dependency_edges_amended (rfl :
      mkModelStep "MyModel" (.args exArgsNoRepack) (some ["A"]) none = .ok exNoRepackOut)
    (Step.create "MyModel-CreateModel" (some exCreateReq) (some ["A"]) none)
    (by decide) (by decide)

/-- C2: a successful composition emits exactly the repack steps of the flagged
constituents, in container order, named
`{collection}-RepackModel-{model name if truthy, else index}`, each carrying
the caller-supplied `depends_on` edges; when the indicator lists `k` distinct
constituent ids (constituent ids themselves distinct), exactly `k` repack
steps are produced. -/
theorem c2_repack_step_production {nm : String} {dp : Option (List String)}
    {rp : Option RetryArg} {a : ModelStepArguments} {out : ComposeOut}
    (hok : mkModelStep nm (.args a) dp rp = .ok out) :
    out.steps.filter Step.isRepack =
      ((pyEnumerate 0 (constituentModels a.model.ref)).filter
          (fun p => needRepackFlag a.needRuntimeRepack p.2)).map
        (fun p => Step.repack (nm ++ "-" ++ repackModelNameBase ++ "-" ++ nameBaseOf p.1 p.2)
          dp (distributeRetry rp).2.2 p.2.modelData p.2.entryPoint p.2.sourceDir
          (sbOf a.model) (sgOf a.model)) ∧
    (∀ s ∈ out.steps.filter Step.isRepack, s.dependsOnEdges = dp.getD []) ∧
    (((constituentModels a.model.ref).map ModelInfo.pid).Nodup →
      a.needRuntimeRepack.Nodup →
      (∀ x ∈ a.needRuntimeRepack, x ∈ (constituentModels a.model.ref).map ModelInfo.pid) →
      (out.steps.filter Step.isRepack).length = a.needRuntimeRepack.length) := by
  obtain ⟨final, hsteps, hrepfin, -, -, -, -, -⟩ := mkModelStep_ok_spec hok
  have hfil : out.steps.filter Step.isRepack = specRepackSteps nm dp rp a := by
    rw [hsteps, List.filter_append]
    have h1 : (specRepackSteps nm dp rp a).filter Step.isRepack = specRepackSteps nm dp rp a := by
      apply List.filter_eq_self.mpr
      intro s hmem
      simp only [specRepackSteps, List.mem_map] at hmem
      obtain ⟨p, -, hp⟩ := hmem
      rw [← hp]; rfl
    have h2 : [final].filter Step.isRepack = [] := by simp [hrepfin]
    rw [h1, h2, List.append_nil]
  refine ⟨?_, ?_, ?_⟩
  · rw [hfil]; rfl
  · intro s hs
    rw [hfil] at hs
    simp only [specRepackSteps, List.mem_map] at hs
    obtain ⟨p, -, hp⟩ := hs
    rw [← hp]
    simp [repackStepFor, Step.dependsOnEdges, Step.dependsOn]
  · intro hnd hnrnd hsub
    rw [hfil]
    simp only [specRepackSteps, List.length_map]
    rw [pyEnumerate_filter_length]
    exact filter_flag_length_eq hnd hnrnd hsub

/-- C2 (witness): a two-container pipeline model with both constituents
flagged produces exactly two repack steps, named by index for the unnamed
model and by name for the named one. -/
theorem c2_repack_step_production_witness :
    (exPipeOut.steps.filter Step.isRepack).length = exArgsPipe.needRuntimeRepack.length ∧
    (exPipeOut.steps.filter Step.isRepack).map Step.name =
      ["N-RepackModel-0", "N-RepackModel-bee"] :=
  ⟨(c2_repack_step_production (rfl :
        mkModelStep "N" (.args exArgsPipe) (some ["U"]) none = .ok exPipeOut)).2.2
      (by decide) (by decide) (by decide),
   by decide⟩

/-- C3: every successful composition is zero-or-more repack steps followed by
exactly one final step, which is a register step exactly when register
arguments are present and a create step otherwise; the overall list contains
exactly one create-or-register step. -/
theorem c3_single_create_or_register {nm : String} {dp : Option (List String)}
    {rp : Option RetryArg} {a : ModelStepArguments} {out : ComposeOut}
    (hok : mkModelStep nm (.args a) dp rp = .ok out) :
    ∃ pre final, out.steps = pre ++ [final] ∧
      (∀ s ∈ pre, s.isRepack = true) ∧
      final.isRegister = a.createModelPackageRequest.isSome ∧
      final.isCreate = !a.createModelPackageRequest.isSome ∧
      (out.steps.filter (fun s => s.isCreate || s.isRegister)).length = 1 := by
  obtain ⟨final, hsteps, hrepfin, hregp, hcrp, -, -, -⟩ := mkModelStep_ok_spec hok
  refine ⟨specRepackSteps nm dp rp a, final, hsteps, ?_, hregp, hcrp, ?_⟩
  · intro s hmem
    simp only [specRepackSteps, List.mem_map] at hmem
    obtain ⟨p, -, hp⟩ := hmem
    rw [← hp]; rfl
  · rw [hsteps, List.filter_append]
    have h1 : (specRepackSteps nm dp rp a).filter (fun s => s.isCreate || s.isRegister) = [] := by
      apply List.filter_eq_nil_iff.mpr
      intro s hmem
      simp only [specRepackSteps, List.mem_map] at hmem
      obtain ⟨p, -, hp⟩ := hmem
      rw [← hp]
      simp [repackStepFor, Step.isCreate, Step.isRegister]
    have h2 : (final.isCreate || final.isRegister) = true := by
      cases hb : a.createModelPackageRequest.isSome
      · rw [hb] at hcrp; simp [hcrp]
      · rw [hb] at hregp; simp [hregp]
    rw [h1]
    simp [h2]

/-- C3 (witness): the concrete no-repack composition is a single create step. -/
theorem c3_single_create_or_register_witness :
    ∃ pre final, exNoRepackOut.steps = pre ++ [final] ∧
      (∀ s ∈ pre, s.isRepack = true) ∧
      final.isRegister = exArgsNoRepack.createModelPackageRequest.isSome ∧
      final.isCreate = !exArgsNoRepack.createModelPackageRequest.isSome ∧
      (exNoRepackOut.steps.filter (fun s => s.isCreate || s.isRegister)).length = 1 :=
  c3_single_create_or_register (rfl :
    mkModelStep "MyModel" (.args exArgsNoRepack) (some ["A"]) none = .ok exNoRepackOut)

/-- C4: the container patch performed immediately after appending a repack
step overwrites only the `ModelDataUrl` field of the matching container — the
positional container for a multi-container create request, the primary
container for a single-container create request, the positional
inference-specification container for a register request — leaving every other
field of the request payload, the other request payload, and (last conjunct)
every container at a different index unchanged. -/
theorem c4_model_data_url_patch_frame :
    (∀ (i : Nat) (v : ModelDataVal) (cr : CreateModelRequest) (cs : List Container)
        (r : Option RegisterModelRequest) (h : i < cs.length),
        cr.containers = some cs →
        patchContainer true i v (some cr) r =
          .ok (some { cr with containers := some (cs.set i { cs[i] with modelDataUrl := some v }) }, r)) ∧
    (∀ (i : Nat) (v : ModelDataVal) (cr : CreateModelRequest) (pc : Container)
        (r : Option RegisterModelRequest),
        cr.primaryContainer = some pc →
        patchContainer false i v (some cr) r =
          .ok (some { cr with primaryContainer := some { pc with modelDataUrl := some v } }, r)) ∧
    (∀ (ip : Bool) (i : Nat) (v : ModelDataVal) (rr : RegisterModelRequest)
        (cs : List Container) (h : i < cs.length),
        rr.inferenceSpecificationContainers = some cs →
        patchContainer ip i v none (some rr) =
          .ok (none, some { rr with inferenceSpecificationContainers := some (cs.set i { cs[i] with modelDataUrl := some v }) })) ∧
    (∀ (cs : List Container) (i j : Nat) (cNew : Container), j ≠ i →
        (cs.set i cNew)[j]? = cs[j]?) := by
  refine ⟨?_, ?_, ?_, ?_⟩
  · intro i v cr cs r h hcs
    simp [patchContainer, hcs, h]
  · intro i v cr pc r hpc
    simp [patchContainer, hpc]
  · intro ip i v rr cs h hcs
    simp [patchContainer, hcs, h]
  · intro cs i j cNew hij
    exact List.getElem?_set_ne (Ne.symm hij)

/-- C4 (witness): patching the primary container of the concrete
single-container create request rewrites only its `ModelDataUrl`. -/
theorem c4_model_data_url_patch_frame_witness :
    patchContainer false 0 (.propRef "P") (some exCreateReq) none =
      .ok (some { exCreateReq with primaryContainer := some { exPrimary with modelDataUrl := some (.propRef "P") } }, none) :=
  c4_model_data_url_patch_frame.2.1 0 (.propRef "P") exCreateReq exPrimary none rfl

/-- C5: under the packaging-layer shape contract, construction fails if and
only if the request is malformed — wrong `step_args` type, violated
create-xor-register exclusivity, or a non-pipeline session — and every
well-formed request composes without raising. -/
theorem c5_construction_error_iff {nm : String} {dp : Option (List String)}
    {rp : Option RetryArg} {input : ModelStepInput} (hAl : AlignedInput input) :
    (∃ e, mkModelStep nm input dp rp = .error e) ↔ MalformedInput input := by
  constructor
  · rintro ⟨e, he⟩
    cases input with
    | notModelStepArguments => trivial
    | args a =>
      by_cases hxor : a.createModelRequest.isSome = a.createModelPackageRequest.isSome
      · exact Or.inl hxor
      by_cases hsess : a.model.sessionIsPipeline = false
      · exact Or.inr hsess
      obtain ⟨out, hout⟩ := mk_ok_of_valid hxor hsess hAl
      rw [hout] at he
      exact absurd he (by simp)
  · intro hm
    cases input with
    | notModelStepArguments => exact ⟨.stepArgsTypeError, rfl⟩
    | args a =>
      rcases hm with hxor | hsess
      · exact ⟨.mutualExclusionValueError, by simp only [mkModelStep]; rw [if_pos hxor]⟩
      · by_cases hxor : a.createModelRequest.isSome = a.createModelPackageRequest.isSome
        · exact ⟨.mutualExclusionValueError, by simp only [mkModelStep]; rw [if_pos hxor]⟩
        · exact ⟨.sessionTypeError, by simp only [mkModelStep]; rw [if_neg hxor, if_pos hsess]⟩

/-- C5 (witness): a `step_args` value of the wrong type is rejected. -/
theorem c5_construction_error_iff_witness :
    ∃ e, mkModelStep "N" ModelStepInput.notModelStepArguments none none = .error e :=
  (c5_construction_error_iff (by trivial)).mpr (by trivial)

/-- C6: `Join` serialization — the primitive example with default separator,
the same with separator "," (only the `"On"` field differs), and a single-pass
member coercion of a string literal, parameter references, a property
reference, an execution-variable reference and a nested `Join`. -/
theorem c6_join_serialization :
    Expr.expr (.join "" [.prim (.int 1), .prim (.str "a"), .prim (.bool false), .prim (.float "1.1")]) =
      .ok (.obj [("Std:Join", .obj [("On", .str ""), ("Values", .arr [.int 1, .str "a", .bool false, .float "1.1"])])]) ∧
    Expr.expr (.join "," [.prim (.int 1), .prim (.str "a"), .prim (.bool false), .prim (.float "1.1")]) =
      .ok (.obj [("Std:Join", .obj [("On", .str ","), ("Values", .arr [.int 1, .str "a", .bool false, .float "1.1"])])]) ∧
    Expr.expr (.join "" [.prim (.str "foo"), .parameter "MyFloat", .parameter "MyInt",
        .parameter "MyStr", .properties "Steps.foo.OutputPath.S3Uri",
        .executionVariable "PipelineExecutionId",
        .join "," [.prim (.int 1), .prim (.str "a"), .prim (.bool false), .prim (.float "1.1")]]) =
      .ok (.obj [("Std:Join", .obj [("On", .str ""), ("Values", .arr
        [.str "foo", .obj [("Get", .str "Parameters.MyFloat")],
         .obj [("Get", .str "Parameters.MyInt")], .obj [("Get", .str "Parameters.MyStr")],
         .obj [("Get", .str "Steps.foo.OutputPath.S3Uri")],
         .obj [("Get", .str "Execution.PipelineExecutionId")],
         .obj [("Std:Join", .obj [("On", .str ","), ("Values", .arr [.int 1, .str "a", .bool false, .float "1.1"])])]])])]) :=
  ⟨rfl, rfl, rfl⟩

/-- C7: `JsonGet` serialization succeeds exactly on a non-empty concrete step
name, producing the canonical object whose property-file name is the inline
string or the descriptor's name field; an empty or deferred step name fails
with the value error containing "valid step name". -/
theorem c7_jsonget_serialization :
    (∀ (s : String) (pf : PropertyFileArg) (pth : String), s ≠ "" →
      Expr.expr (.jsonGet (.lit s) pf pth) =
        .ok (.obj [("Std:JsonGet", .obj [("PropertyFile", .obj [("Get", .str ("Steps." ++ s ++ ".PropertyFiles." ++ pf.fileName))]), ("Path", .str pth)])])) ∧
    (∀ s, (PropertyFileArg.str s).fileName = s) ∧
    (∀ n o p, (PropertyFileArg.file n o p).fileName = n) ∧
    (∀ (pf : PropertyFileArg) (pth : String),
      Expr.expr (.jsonGet (.lit "") pf pth) = .error jsonGetErrMsg) ∧
    (∀ (pf : PropertyFileArg) (pth : String),
      Expr.expr (.jsonGet .deferred pf pth) = .error jsonGetErrMsg) ∧
    (∃ pre suf, jsonGetErrMsg = pre ++ "valid step name" ++ suf) ∧
    (∀ (sn : StepNameArg) (pf : PropertyFileArg) (pth : String),
      (∃ v, Expr.expr (.jsonGet sn pf pth) = .ok v) ↔ ∃ s, sn = .lit s ∧ s ≠ "") := by
  refine ⟨?_, fun s => rfl, fun n o p => rfl, fun pf pth => rfl, fun pf pth => rfl,
    ⟨"Please give a ", " as a string", rfl⟩, ?_⟩
  · intro s pf pth hs
    simp [Expr.expr, hs]
  · intro sn pf pth
    constructor
    · rintro ⟨v, hv⟩
      cases sn with
      | deferred => simp [Expr.expr] at hv
      | lit s =>
        by_cases hs : s = ""
        · rw [hs] at hv
          simp [Expr.expr] at hv
        · exact ⟨s, rfl, hs⟩
    · rintro ⟨s, hsn, hs⟩
      subst hsn
      exact ⟨.obj [("Std:JsonGet", .obj [("PropertyFile", .obj [("Get", .str ("Steps." ++ s ++ ".PropertyFiles." ++ pf.fileName))]), ("Path", .str pth)])],
        by simp [Expr.expr, hs]⟩

/-- C7 (witness): the concrete serialization of the test's example. -/
theorem c7_jsonget_serialization_witness :
    Expr.expr (.jsonGet (.lit "s") (.str "p") "j") =
      .ok (.obj [("Std:JsonGet", .obj [("PropertyFile", .obj [("Get", .str "Steps.s.PropertyFiles.p")]), ("Path", .str "j")])]) :=
  c7_jsonget_serialization.1 "s" (.str "p") "j" (by decide)

/-- C8: on every `Join` or `JsonGet` instance, native string / integer / float
conversion each raise a type error with the operation-specific message,
concatenation raises a type error whose message mentions "concatenation", and
the string predicates `startswith` / `endswith` do not raise but return
`false`. -/
theorem c8_native_operations_rejected :
    ∀ e : Expr, e.isJoinOrJsonGet = true →
      pvStr e = .error "Pipeline variables do not support __str__ operation." ∧
      pvInt e = .error "Pipeline variables do not support __int__ operation." ∧
      pvFloat e = .error "Pipeline variables do not support __float__ operation." ∧
      (∀ e₂, pvAdd e e₂ = .error "Pipeline variables do not support concatenation.") ∧
      (∃ pre suf, ("Pipeline variables do not support concatenation." : String) =
        pre ++ "concatenation" ++ suf) ∧
      (∀ pre, pvStartswith e pre = false) ∧
      (∀ suf, pvEndswith e suf = false) := by
  intro e he
  refine ⟨?_, ?_, ?_, fun e₂ => rfl, ⟨"Pipeline variables do not support ", ".", rfl⟩,
    fun pre => rfl, fun suf => rfl⟩ <;>
    cases e <;> simp_all [Expr.isJoinOrJsonGet, pvStr, pvInt, pvFloat]

/-- C8 (witness): the rejections at a concrete `Join` instance. -/
theorem c8_native_operations_rejected_witness :
    pvStr (.join "" [.prim (.int 1)]) = .error "Pipeline variables do not support __str__ operation." ∧
    pvInt (.join "" [.prim (.int 1)]) = .error "Pipeline variables do not support __int__ operation." ∧
    pvAdd (.join "" [.prim (.int 1)]) (.prim (.int 3)) = .error "Pipeline variables do not support concatenation." ∧
    pvStartswith (.join "" [.prim (.int 1)]) "s3" = false :=
  ⟨(c8_native_operations_rejected (.join "" [.prim (.int 1)]) rfl).1,
   (c8_native_operations_rejected (.join "" [.prim (.int 1)]) rfl).2.1,
   (c8_native_operations_rejected (.join "" [.prim (.int 1)]) rfl).2.2.2.1 (.prim (.int 3)),
   (c8_native_operations_rejected (.join "" [.prim (.int 1)]) rfl).2.2.2.2.2.1 "s3"⟩

/-- C9: a non-empty need-repack indicator on a model of unrecognized shape
logs "No models to repack", produces zero repack steps, raises no error, and
composition still builds the single create/register step. -/
theorem c9_unrecognized_shape_soft_degradation {nm : String} {dp : Option (List String)}
    {rp : Option RetryArg} {a : ModelStepArguments}
    (hother : a.model.ref = .other)
    (hne : a.needRuntimeRepack ≠ [])
    (hxor : a.createModelRequest.isSome ≠ a.createModelPackageRequest.isSome)
    (hsess : a.model.sessionIsPipeline = true) :
    ∃ out, mkModelStep nm (.args a) dp rp = .ok out ∧
      out.warnings = ["No models to repack"] ∧
      out.steps.filter Step.isRepack = [] ∧
      (out.steps.filter (fun s => s.isCreate || s.isRegister)).length = 1 := by
  have hne' : a.needRuntimeRepack.isEmpty = false := by
    simpa [List.isEmpty_eq_false] using hne
  have hsess' : ¬a.model.sessionIsPipeline = false := by simp [hsess]
  cases hr : a.createModelPackageRequest with
  | some reg =>
    refine ⟨{ steps := [.register (nm ++ "-" ++ registerModelNameBase) reg none (distributeRetry rp).2.1], warnings := ["No models to repack"] }, ?_, rfl, ?_, ?_⟩
    · rw [mkModelStep, if_neg hxor, if_neg hsess']
      simp [hne', appendRepack, hother, hr]
    · simp [Step.isRepack]
    · simp [Step.isCreate, Step.isRegister]
  | none =>
    refine ⟨{ steps := [.create (nm ++ "-" ++ createModelNameBase) a.createModelRequest none (distributeRetry rp).1], warnings := ["No models to repack"] }, ?_, rfl, ?_, ?_⟩
    · rw [mkModelStep, if_neg hxor, if_neg hsess']
      simp [hne', appendRepack, hother, hr]
    · simp [Step.isRepack]
    · simp [Step.isCreate, Step.isRegister]

/-- C9 (witness): the concrete unrecognized-shape composition. -/
theorem c9_unrecognized_shape_soft_degradation_witness :
    ∃ out, mkModelStep "N" (.args exArgsOther) (some ["U"]) none = .ok out ∧
      out.warnings = ["No models to repack"] ∧
      out.steps.filter Step.isRepack = [] ∧
      (out.steps.filter (fun s => s.isCreate || s.isRegister)).length = 1 :=
  c9_unrecognized_shape_soft_degradation rfl (by decide) (by decide) rfl

/-- C10: dependency-edge suppression is keyed on the indicator being
non-empty, not on a repack step existing: when the indicator is non-empty and
zero repack steps were produced, the create/register step still receives no
`depends_on` edges, losing the caller-supplied list. -/
theorem c10_suppression_keyed_on_indicator {nm : String} {dp : Option (List String)}
    {rp : Option RetryArg} {a : ModelStepArguments} {out : ComposeOut}
    (hok : mkModelStep nm (.args a) dp rp = .ok out)
    (hne : a.needRuntimeRepack ≠ [])
    (_hnorep : out.steps.filter Step.isRepack = []) :
    ∀ s ∈ out.steps, (s.isCreate || s.isRegister) = true → s.dependsOnEdges = [] := by
  intro s hs hcr
  have hd := createRegister_mem_spec hok hs hcr
  have hne' : a.needRuntimeRepack.isEmpty = false := by
    simpa [List.isEmpty_eq_false] using hne
  simp [Step.dependsOnEdges, hd, hne']

/-- C10 (witness): the concrete ghost-indicator composition, whose create step
loses the caller's `["UpstreamStep"]` edge. -/
theorem c10_suppression_keyed_on_indicator_witness :
    (Step.create "MyModel-CreateModel" (some exCreateReq) none none).dependsOnEdges = [] :=
  c10_suppression_keyed_on_indicator (rfl :
      mkModelStep "MyModel" (.args exArgsGhostRepack) (some ["UpstreamStep"]) none = .ok exGhostOut)
    (by decide) rfl
    (Step.create "MyModel-CreateModel" (some exCreateReq) none none)
    (by decide) (by decide)
